import Mathlib

/-!
Verification of the nRF desktop HID service module
(samples/nrf_desktop/src/services/hids.c).

The module keeps a protocol mode (report vs boot), a per-report /
per-mode subscription matrix, reconciles the two into outward
subscription-change events, and encodes mouse and keyboard input events
into the byte layouts of the HID report descriptor.  The definitions
below are a shallow embedding of that C file: the mutable globals
report_mode and report_enabled become an explicit state record, event
emission becomes an explicit list of emitted events, and the compile
time IS_ENABLED configuration becomes a record of booleans.
-/

/-- The logical report kinds handled by the module, mirroring
TARGET_REPORT_MOUSE, TARGET_REPORT_KEYBOARD and TARGET_REPORT_MPLAYER. -/
inductive TargetReport
  | mouse
  | keyboard
  | mplayer
deriving DecidableEq

/-- enum report_mode in hids.c: REPORT_MODE_PROTOCOL and REPORT_MODE_BOOT. -/
inductive ReportMode
  | protocol
  | boot
deriving DecidableEq

/-- The protocol mode events delivered to pm_evt_handler.  The C switch has
cases for HIDS_PM_EVT_BOOT_MODE_ENTERED and HIDS_PM_EVT_REPORT_MODE_ENTERED
and a default branch; the constructor other stands for any value that falls
into the default branch (a malformed mode event). -/
inductive HidsPmEvt
  | bootModeEntered
  | reportModeEntered
  | other
deriving DecidableEq

/-- The CCCD events delivered to notif_handler: HIDS_CCCD_EVT_NOTIF_ENABLED
and HIDS_CCCD_EVT_NOTIF_DISABLED. -/
inductive HidsNotifEvt
  | notifEnabled
  | notifDisabled
deriving DecidableEq

/-- The boolean the C code derives from the CCCD event:
bool enabled = (evt == HIDS_CCCD_EVT_NOTIF_ENABLED). -/
def HidsNotifEvt.toEnabled : HidsNotifEvt → Bool
  | .notifEnabled => true
  | .notifDisabled => false

/-- The IS_ENABLED compile time configuration consumed by the module:
CONFIG_DESKTOP_HID_MOUSE, CONFIG_DESKTOP_HID_KEYBOARD and
CONFIG_DESKTOP_HID_MPLAYER. -/
structure Config where
  hid_mouse : Bool
  hid_keyboard : Bool
  hid_mplayer : Bool
deriving DecidableEq

/-- The array bool report_enabled[TARGET_REPORT_COUNT][REPORT_MODE_COUNT]
spelled out as one boolean per (report, mode) cell. -/
structure SubMatrix where
  mouse_protocol : Bool
  mouse_boot : Bool
  keyboard_protocol : Bool
  keyboard_boot : Bool
  mplayer_protocol : Bool
  mplayer_boot : Bool
deriving DecidableEq

/-- Array read report_enabled[tr][mode]. -/
def SubMatrix.get (m : SubMatrix) : TargetReport → ReportMode → Bool
  | .mouse, .protocol => m.mouse_protocol
  | .mouse, .boot => m.mouse_boot
  | .keyboard, .protocol => m.keyboard_protocol
  | .keyboard, .boot => m.keyboard_boot
  | .mplayer, .protocol => m.mplayer_protocol
  | .mplayer, .boot => m.mplayer_boot

/-- Array write report_enabled[tr][mode] = v. -/
def SubMatrix.set (m : SubMatrix) (tr : TargetReport) (mode : ReportMode) (v : Bool) :
    SubMatrix :=
  match tr, mode with
  | .mouse, .protocol => { m with mouse_protocol := v }
  | .mouse, .boot => { m with mouse_boot := v }
  | .keyboard, .protocol => { m with keyboard_protocol := v }
  | .keyboard, .boot => { m with keyboard_boot := v }
  | .mplayer, .protocol => { m with mplayer_protocol := v }
  | .mplayer, .boot => { m with mplayer_boot := v }

/-- The mutable module state: the globals report_mode and report_enabled. -/
structure HidsState where
  report_mode : ReportMode
  report_enabled : SubMatrix
deriving DecidableEq

/-- broadcast_subscription_change in hids.c.  Returns the
hid_report_subscription_event it submits, or none when it returns early
because the report state did not change between the two modes.  The
submitted event carries (report_type, enabled) with
enabled = report_enabled[tr][new_mode]. -/
def broadcast_subscription_change (s : HidsState) (tr : TargetReport)
    (old_mode new_mode : ReportMode) : Option (TargetReport × Bool) :=
  if old_mode ≠ new_mode ∧
      s.report_enabled.get tr old_mode = s.report_enabled.get tr new_mode then
    none
  else
    some (tr, s.report_enabled.get tr new_mode)

/-- The switch statement at the top of pm_evt_handler: the new value of
report_mode as a function of the event and the old value (the default
branch leaves it unchanged). -/
def pm_next_mode : HidsPmEvt → ReportMode → ReportMode
  | .bootModeEntered, _ => .boot
  | .reportModeEntered, _ => .protocol
  | .other, old => old

/-- pm_evt_handler in hids.c.  Returns the updated state together with the
list of submitted subscription events, in submission order.  Note that the
source passes TARGET_REPORT_MOUSE in all three IS_ENABLED branches (lines
110 to 121 of hids.c), including the CONFIG_DESKTOP_HID_KEYBOARD and
CONFIG_DESKTOP_HID_MPLAYER ones; the embedding reproduces that literally. -/
def pm_evt_handler (cfg : Config) (evt : HidsPmEvt) (s : HidsState) :
    HidsState × List (TargetReport × Bool) :=
  let old_mode := s.report_mode
  let s1 : HidsState := { s with report_mode := pm_next_mode evt old_mode }
  if s1.report_mode ≠ old_mode then
    (s1,
      (if cfg.hid_mouse then
        (broadcast_subscription_change s1 .mouse old_mode s1.report_mode).toList
      else []) ++
      (if cfg.hid_keyboard then
        (broadcast_subscription_change s1 .mouse old_mode s1.report_mode).toList
      else []) ++
      (if cfg.hid_mplayer then
        (broadcast_subscription_change s1 .mouse old_mode s1.report_mode).toList
      else []))
  else
    (s1, [])

/-- notif_handler in hids.c: stores the toggled value into
report_enabled[tr][mode] and, when the toggled mode is the active one and
the stored value actually changed, broadcasts the change. -/
def notif_handler (evt : HidsNotifEvt) (tr : TargetReport) (mode : ReportMode)
    (s : HidsState) : HidsState × List (TargetReport × Bool) :=
  let enabled := evt.toEnabled
  let s1 : HidsState := { s with report_enabled := s.report_enabled.set tr mode enabled }
  if s.report_mode = mode ∧ s.report_enabled.get tr mode ≠ enabled then
    (s1, (broadcast_subscription_change s1 tr mode mode).toList)
  else
    (s1, [])

/-- The protocol mode event that makes a given mode active. -/
def enter_mode_evt : ReportMode → HidsPmEvt
  | .boot => .bootModeEntered
  | .protocol => .reportModeEntered

/-- The configuration with all three reports compiled in. -/
def cfgAll : Config := ⟨true, true, true⟩

/-- Sample state for the mode change scenario: report protocol mode active,
mouse disabled in the report protocol row and enabled in the boot row,
everything else disabled. -/
def s_c1 : HidsState := ⟨.protocol, ⟨false, true, false, false, false, false⟩⟩

/-- Sample state: report protocol mode active, keyboard disabled in the
report protocol row and enabled in the boot row, everything else
disabled. -/
def s_c2 : HidsState := ⟨.protocol, ⟨false, false, false, true, false, false⟩⟩

/-- Sample state: report protocol mode active, all subscriptions off. -/
def s_zero : HidsState := ⟨.protocol, ⟨false, false, false, false, false, false⟩⟩

/-- Sample state: boot mode active, all subscriptions off. -/
def s_boot : HidsState := ⟨.boot, ⟨false, false, false, false, false, false⟩⟩

/-- struct hid_mouse_event: signed deltas and wheel, 8 bit button bitmap. -/
structure HidMouseEvent where
  button_bm : Nat
  dx : Int
  dy : Int
  wheel : Int
deriving DecidableEq

/-- struct hid_keyboard_event: 8 bit modifier bitmap and the array of
pressed key codes (six entries, by the static assertion in send_keyboard). -/
structure HidKeyboardEvent where
  modifier_bm : Nat
  keys : List Nat
deriving DecidableEq

/-- sys_put_le16 applied to a signed 16 bit value: the little endian pair
of bytes of its two's complement representation (low byte, high byte). -/
def sys_put_le16 (v : Int) : Nat × Nat :=
  let u := (v % 65536).toNat
  (u % 256, u / 256)

/-- The report protocol branch of send_mouse_report: the 5 byte buffer it
hands to hids_inp_rep_send.  Clamps follow lines 383 to 385 of hids.c and
the byte packing lines 399 to 403. -/
def mouse_report_buffer (e : HidMouseEvent) : List Nat :=
  let wheel := max (min e.wheel 127) (-127)
  let x := max (min e.dx 2047) (-2047)
  let y := max (min e.dy 2047) (-2047)
  let x_buff := sys_put_le16 x
  let y_buff := sys_put_le16 y
  [e.button_bm,
   (wheel % 256).toNat,
   x_buff.1,
   ((y_buff.1 <<< 4) ||| (x_buff.2 &&& 15)) % 256,
   ((y_buff.2 <<< 4) ||| (y_buff.1 >>> 4)) % 256]

/-- A call into the transport layer: either the dedicated boot mouse path
hids_boot_mouse_inp_rep_send (button bitmap plus two signed bytes), the
dedicated boot keyboard path hids_boot_kb_inp_rep_send (a buffer with an
explicit transmitted length), or the generic indexed path
hids_inp_rep_send. -/
inductive SendCall
  | bootMouse (button_bm : Nat) (x y : Int)
  | bootKb (bytes : List Nat)
  | inpRep (index : Nat) (bytes : List Nat)
deriving DecidableEq

/-- enum report_id value REPORT_ID_MOUSE. -/
def REPORT_ID_MOUSE : Nat := 1

/-- enum report_id value REPORT_ID_KEYBOARD. -/
def REPORT_ID_KEYBOARD : Nat := 2

/-- enum report_id value REPORT_ID_MPLAYER. -/
def REPORT_ID_MPLAYER : Nat := 3

/-- The report_index array as filled in by module_init: indexes are handed
out sequentially (ir_pos) to the enabled reports in mouse, keyboard,
media player order. -/
def report_index (cfg : Config) (id : Nat) : Nat :=
  if id = REPORT_ID_MOUSE then 0
  else if id = REPORT_ID_KEYBOARD then (if cfg.hid_mouse then 1 else 0)
  else (if cfg.hid_mouse then 1 else 0) + (if cfg.hid_keyboard then 1 else 0)

/-- send_mouse_report in hids.c, returning the transport call it makes.
In boot mode the deltas are clamped to SCHAR_MIN..SCHAR_MAX and handed to
the boot mouse path; otherwise the 5 byte buffer goes to the generic path
at the mouse report index. -/
def send_mouse_report (cfg : Config) (mode : ReportMode) (e : HidMouseEvent) :
    SendCall :=
  if mode = .boot then
    .bootMouse e.button_bm (max (min e.dx 127) (-128)) (max (min e.dy 127) (-128))
  else
    .inpRep (report_index cfg REPORT_ID_MOUSE) (mouse_report_buffer e)

/-- The 9 byte keyboard report assembled by send_keyboard: modifiers,
reserved zero, the six key codes, and the zero LED byte. -/
def keyboard_report (e : HidKeyboardEvent) : List Nat :=
  [e.modifier_bm, 0] ++ e.keys ++ [0]

/-- send_keyboard in hids.c, returning the transport call it makes.  In
boot mode the same buffer is sent through the boot keyboard path with
length sizeof(report) - sizeof(report[8]) = 8, so the transmitted bytes
are the first eight; otherwise all 9 bytes go to the generic path at the
keyboard report index. -/
def send_keyboard (cfg : Config) (mode : ReportMode) (e : HidKeyboardEvent) :
    SendCall :=
  if mode = .boot then
    .bootKb ((keyboard_report e).take 8)
  else
    .inpRep (report_index cfg REPORT_ID_KEYBOARD) (keyboard_report e)

/-- The peer states handled by notify_hids. -/
inductive PeerState
  | connected
  | disconnected
  | secured
deriving DecidableEq

/-- An event arriving at the module through the event bus.  The first two
constructors mirror hid_mouse_event and hid_keyboard_event from
hid_event.h; blePeer and moduleState mirror ble_peer_event and
module_state_event.  Modelled from the spec: hidMplayer stands for a
request to send a MediaPlayer report (the spec's transport dispatcher
section); no such event type exists in hids.c itself, which declares no
media player input event and subscribes to none. -/
inductive Event
  | hidMouse (e : HidMouseEvent)
  | hidKeyboard (e : HidKeyboardEvent)
  | hidMplayer (bitmap : Nat)
  | blePeer (st : PeerState)
  | moduleState
deriving DecidableEq

/-- event_handler in hids.c, restricted to what it sends: the list of
transport calls it makes, paired with whether it reaches the final
ASSERT(false) for an unhandled event.  Mouse and keyboard events are
dispatched to their send functions only when the matching IS_ENABLED
configuration is on; ble peer and module state events make no send
call. -/
def event_handler (cfg : Config) (s : HidsState) (ev : Event) :
    List SendCall × Bool :=
  match ev with
  | .hidMouse e =>
      if cfg.hid_mouse then ([send_mouse_report cfg s.report_mode e], false)
      else ([], true)
  | .hidKeyboard e =>
      if cfg.hid_keyboard then ([send_keyboard cfg s.report_mode e], false)
      else ([], true)
  | .blePeer _ => ([], false)
  | .moduleState => ([], false)
  | .hidMplayer _ => ([], true)

/-- The EVENT_SUBSCRIBE lines at the bottom of hids.c: the module
subscribes to hid_keyboard_event, hid_mouse_event, module_state_event and
ble_peer_event, and to nothing else. -/
def subscribed : Event → Bool
  | .hidMouse _ => true
  | .hidKeyboard _ => true
  | .moduleState => true
  | .blePeer _ => true
  | .hidMplayer _ => false

/-- Delivery of an event to the module through the event bus: only
subscribed events reach event_handler, all others are dropped before the
module sees them. -/
def deliver_event (cfg : Config) (s : HidsState) (ev : Event) :
    List SendCall × Bool :=
  if subscribed ev then event_handler cfg s ev else ([], false)

/-- The spec side 12 bit two's complement encoding of a clamped delta:
the nonnegative residue of the value mod 4096. -/
def to12 (v : Int) : Nat := (v % 4096).toNat

/-- Sign extension of a 12 bit two's complement value back to an
integer. -/
def sext12 (u : Nat) : Int := if u < 2048 then (u : Int) else (u : Int) - 4096

/-- Decoding of the x delta from bytes 2 and 3 of the report mode mouse
buffer, per the descriptor's documented layout: byte 2 is the low 8 bits,
the low nibble of byte 3 is bits 8 to 11. -/
def unpack12_x (b2 b3 : Nat) : Int := sext12 (b2 + (b3 % 16) * 256)

/-- Decoding of the y delta from bytes 3 and 4 of the report mode mouse
buffer, per the descriptor's documented layout: the high nibble of byte 3
is bits 0 to 3, byte 4 is bits 4 to 11. -/
def unpack12_y (b3 b4 : Nat) : Int := sext12 (b3 / 16 + b4 * 16)

/-- Bit packing helper: shifting a value left by a nibble and oring in a
value below 16 is multiplication by 16 plus addition. -/
theorem nibble_or_eq (a b : Nat) (h : b < 16) : (a <<< 4) ||| b = 16 * a + b := by
  rw [Nat.shiftLeft_eq, Nat.mul_comm]
  exact (Nat.mul_add_lt_is_or (by omega) a).symm

/-- Shifting right by 4 is division by 16. -/
theorem shiftRight4_eq_div (a : Nat) : a >>> 4 = a / 16 := by
  rw [Nat.shiftRight_eq_div_pow]

/-- Reading back the subscription matrix cell just written. -/
theorem SubMatrix.get_set_self (m : SubMatrix) (tr : TargetReport)
    (mode : ReportMode) (v : Bool) : (m.set tr mode v).get tr mode = v := by
  cases tr <;> cases mode <;> rfl

/-- pm_evt_handler leaves report_mode at the value the switch computes. -/
theorem pm_report_mode (cfg : Config) (evt : HidsPmEvt) (s : HidsState) :
    (pm_evt_handler cfg evt s).1.report_mode = pm_next_mode evt s.report_mode := by
  simp only [pm_evt_handler]
  split <;> rfl

/-- pm_evt_handler never touches the subscription matrix. -/
theorem pm_report_enabled (cfg : Config) (evt : HidsPmEvt) (s : HidsState) :
    (pm_evt_handler cfg evt s).1.report_enabled = s.report_enabled := by
  simp only [pm_evt_handler]
  split <;> rfl

/-- The event entering a mode makes the switch select that mode. -/
theorem pm_next_mode_enter (mode old : ReportMode) :
    pm_next_mode (enter_mode_evt mode) old = mode := by
  cases mode <;> rfl

/-- The report mode mouse buffer, byte by byte, in terms of the 12 bit
two's complement encodings of the clamped deltas: byte 0 the buttons,
byte 1 the clamped wheel as a byte, byte 2 the low 8 bits of x, byte 3
the low nibble of y over the high nibble of x, byte 4 bits 4 to 11
of y. -/
theorem mouse_report_buffer_eq (e : HidMouseEvent) :
    mouse_report_buffer e =
      [e.button_bm,
       ((max (min e.wheel 127) (-127)) % 256).toNat,
       to12 (max (min e.dx 2047) (-2047)) % 256,
       (to12 (max (min e.dy 2047) (-2047)) % 16) * 16 +
         to12 (max (min e.dx 2047) (-2047)) / 256,
       to12 (max (min e.dy 2047) (-2047)) / 16] := by
  have h3 : ∀ x y : Int,
      (((y % 65536).toNat % 256) <<< 4 ||| ((x % 65536).toNat / 256) &&& 15) % 256
        = ((y % 4096).toNat % 16) * 16 + (x % 4096).toNat / 256 := by
    intro x y
    have ha : ((x % 65536).toNat / 256) &&& 15 = ((x % 65536).toNat / 256) % 16 :=
      Nat.and_pow_two_sub_one_eq_mod _ 4
    have hb := nibble_or_eq ((y % 65536).toNat % 256)
      (((x % 65536).toNat / 256) % 16) (by omega)
    rw [ha, hb]
    omega
  have h4 : ∀ y : Int,
      (((y % 65536).toNat / 256) <<< 4 ||| ((y % 65536).toNat % 256) >>> 4) % 256
        = (y % 4096).toNat / 16 := by
    intro y
    have ha := shiftRight4_eq_div ((y % 65536).toNat % 256)
    have hb := nibble_or_eq ((y % 65536).toNat / 256)
      (((y % 65536).toNat % 256) / 16) (by omega)
    rw [ha, hb]
    omega
  have h2 : ∀ x : Int, (x % 65536).toNat % 256 = (x % 4096).toNat % 256 := by
    intro x
    omega
  simp only [mouse_report_buffer, sys_put_le16, to12]
  rw [h3, h4, h2]

/-- C1: evaluation of pm_evt_handler at the claim's own scenario (all three
reports compiled in, mouse enabled in the boot row and disabled in the
report row).  Entering boot mode submits SubscriptionChanged(Mouse, true)
three times, not exactly once, because the keyboard and media player
IS_ENABLED branches also pass TARGET_REPORT_MOUSE; switching back likewise
submits SubscriptionChanged(Mouse, false) three times. -/
theorem hids_c1_mode_change_broadcasts :
    (pm_evt_handler cfgAll .bootModeEntered s_c1).2 =
      [(TargetReport.mouse, true), (TargetReport.mouse, true), (TargetReport.mouse, true)] ∧
    ¬(pm_evt_handler cfgAll .bootModeEntered s_c1).2.length = 1 ∧
    (pm_evt_handler cfgAll .reportModeEntered
        (pm_evt_handler cfgAll .bootModeEntered s_c1).1).2 =
      [(TargetReport.mouse, false), (TargetReport.mouse, false), (TargetReport.mouse, false)] := by
  decide

/-- C2: a mode change event that changes the keyboard report's effective
subscription (disabled in the report row, enabled in the boot row) emits no
notification at all, because all three broadcast calls in pm_evt_handler
test the mouse row, which is unchanged.  So the emitted-iff-changed
invariant fails on the code. -/
theorem hids_c2_effective_change_without_emission :
    (pm_evt_handler cfgAll .bootModeEntered s_c2).2 = [] ∧
    s_c2.report_enabled.get .keyboard s_c2.report_mode = false ∧
    (pm_evt_handler cfgAll .bootModeEntered s_c2).1.report_enabled.get .keyboard
      (pm_evt_handler cfgAll .bootModeEntered s_c2).1.report_mode = true := by
  decide

/-- C3: in report protocol mode the mouse encoder produces exactly 5 bytes:
byte 0 the button bitmap unchanged, byte 1 the clamped wheel as a byte,
byte 2 the low 8 bits of the clamped x delta, byte 3 the low nibble of the
clamped y delta in the high nibble over bits 8 to 11 of the clamped x delta
in the low nibble, and byte 4 bits 4 to 11 of the clamped y delta. -/
theorem hids_c3_mouse_report_layout (e : HidMouseEvent) :
    (mouse_report_buffer e).length = 5 ∧
    mouse_report_buffer e =
      [e.button_bm,
       ((max (min e.wheel 127) (-127)) % 256).toNat,
       to12 (max (min e.dx 2047) (-2047)) % 256,
       (to12 (max (min e.dy 2047) (-2047)) % 16) * 16 +
         to12 (max (min e.dx 2047) (-2047)) / 256,
       to12 (max (min e.dy 2047) (-2047)) / 16] :=
  ⟨by simp [mouse_report_buffer_eq], mouse_report_buffer_eq e⟩

/-- C4 counterexample: with dx 3000, dy -3000, wheel 200, buttons 5, the
wheel is clamped to 127, not to -127 as the claim states: byte 1 of the
buffer is 127, whereas the byte encoding of -127 is 129. -/
theorem hids_c4_wheel_clamp_counterexample :
    (mouse_report_buffer ⟨5, 3000, -3000, 200⟩)[1]? = some 127 ∧
    max (min (200 : Int) 127) (-127) = 127 ∧
    ((-127 : Int) % 256).toNat = 129 ∧
    (127 : Nat) ≠ 129 := by
  decide

/-- C4 amended: encoding dx 3000, dy -3000, wheel 200, buttons 5 in report
protocol mode clamps x to 2047, y to -2047 and wheel to 127 (the claim said
-127), gives byte 0 equal to 5, and unpacking bytes 2 to 4 with the
documented 12 bit layout reconstructs exactly x 2047 and y -2047. -/
theorem hids_c4_mouse_encode_example :
    mouse_report_buffer ⟨5, 3000, -3000, 200⟩ = [5, 127, 255, 23, 128] ∧
    max (min (3000 : Int) 2047) (-2047) = 2047 ∧
    max (min (-3000 : Int) 2047) (-2047) = -2047 ∧
    max (min (200 : Int) 127) (-127) = 127 ∧
    unpack12_x 255 23 = 2047 ∧
    unpack12_y 23 128 = -2047 := by
  decide

/-- C5: in boot protocol mode the mouse encoder passes the button bitmap
through unchanged, saturates each delta to the signed 8 bit range -128 to
127, does not represent the wheel (the call is independent of it), and on
dx 3000, dy -3000, buttons 5 produces buttons 5, x 127, y -128. -/
theorem hids_c5_boot_mouse_saturation (cfg : Config) (e : HidMouseEvent) :
    send_mouse_report cfg .boot e =
      SendCall.bootMouse e.button_bm (max (min e.dx 127) (-128))
        (max (min e.dy 127) (-128)) ∧
    -128 ≤ max (min e.dx 127) (-128) ∧ max (min e.dx 127) (-128) ≤ 127 ∧
    -128 ≤ max (min e.dy 127) (-128) ∧ max (min e.dy 127) (-128) ≤ 127 ∧
    (∀ w : Int, send_mouse_report cfg .boot { e with wheel := w } =
      send_mouse_report cfg .boot e) ∧
    send_mouse_report cfgAll .boot ⟨5, 3000, -3000, 200⟩ =
      SendCall.bootMouse 5 127 (-128) :=
  ⟨rfl, by omega, by omega, by omega, by omega, fun w => rfl, by decide⟩

/-- C6: the keyboard encoder produces exactly 9 bytes, modifiers first,
then a reserved zero, the six key codes in input order, and a zero LED
byte; report protocol mode transmits all 9 bytes through the generic
indexed path, boot mode transmits the same buffer with length 8, dropping
the LED byte. -/
theorem hids_c6_keyboard_report (cfg : Config) (e : HidKeyboardEvent)
    (h : e.keys.length = 6) :
    keyboard_report e = [e.modifier_bm, 0] ++ e.keys ++ [0] ∧
    (keyboard_report e).length = 9 ∧
    (keyboard_report e).take 8 = [e.modifier_bm, 0] ++ e.keys ∧
    send_keyboard cfg .protocol e =
      SendCall.inpRep (report_index cfg REPORT_ID_KEYBOARD) (keyboard_report e) ∧
    send_keyboard cfg .boot e = SendCall.bootKb ((keyboard_report e).take 8) ∧
    ((keyboard_report e).take 8).length = 8 := by
  have htake : (keyboard_report e).take 8 = [e.modifier_bm, 0] ++ e.keys := by
    simp only [keyboard_report, ← List.append_assoc]
    exact List.take_left' (by simp [h])
  refine ⟨rfl, by simp [keyboard_report, h], htake, rfl, rfl, by simp [htake, h]⟩

/-- C6 witness: the spec's concrete keyboard example. -/
theorem hids_c6_witness :
    keyboard_report ⟨2, [4, 5, 0, 0, 0, 0]⟩ = [2, 0, 4, 5, 0, 0, 0, 0, 0] ∧
    (keyboard_report ⟨2, [4, 5, 0, 0, 0, 0]⟩).length = 9 ∧
    (keyboard_report ⟨2, [4, 5, 0, 0, 0, 0]⟩).take 8 = [2, 0] ++ [4, 5, 0, 0, 0, 0] :=
  ⟨by decide,
   (hids_c6_keyboard_report cfgAll ⟨2, [4, 5, 0, 0, 0, 0]⟩ (by decide)).2.1,
   (hids_c6_keyboard_report cfgAll ⟨2, [4, 5, 0, 0, 0, 0]⟩ (by decide)).2.2.1⟩

/-- C7: a notification toggle whose mode is not the active one updates the
matrix cell silently (no event emitted, mode unchanged), and the stored
value becomes the effective subscription once a mode change event makes
that mode active. -/
theorem hids_c7_inactive_mode_toggle (cfg : Config) (evt : HidsNotifEvt)
    (tr : TargetReport) (mode : ReportMode) (s : HidsState)
    (h : mode ≠ s.report_mode) :
    (notif_handler evt tr mode s).2 = [] ∧
    (notif_handler evt tr mode s).1.report_enabled.get tr mode = evt.toEnabled ∧
    (notif_handler evt tr mode s).1.report_mode = s.report_mode ∧
    (pm_evt_handler cfg (enter_mode_evt mode)
        (notif_handler evt tr mode s).1).1.report_mode = mode ∧
    (pm_evt_handler cfg (enter_mode_evt mode)
        (notif_handler evt tr mode s).1).1.report_enabled.get tr
      (pm_evt_handler cfg (enter_mode_evt mode)
        (notif_handler evt tr mode s).1).1.report_mode = evt.toEnabled := by
  have hcond : ¬(s.report_mode = mode ∧ s.report_enabled.get tr mode ≠ evt.toEnabled) :=
    fun hc => h hc.1.symm
  have hres : notif_handler evt tr mode s =
      ({ s with report_enabled := s.report_enabled.set tr mode evt.toEnabled }, []) := by
    simp only [notif_handler, if_neg hcond]
  rw [hres]
  refine ⟨rfl, SubMatrix.get_set_self _ _ _ _, rfl, ?_, ?_⟩
  · rw [pm_report_mode]
    exact pm_next_mode_enter _ _
  · rw [pm_report_mode, pm_next_mode_enter, pm_report_enabled]
    exact SubMatrix.get_set_self _ _ _ _

/-- C7 witness: toggling the boot row of the mouse report while report
protocol mode is active. -/
theorem hids_c7_witness :
    (notif_handler .notifEnabled .mouse .boot s_zero).2 = [] ∧
    (notif_handler .notifEnabled .mouse .boot s_zero).1.report_enabled.get .mouse .boot
      = HidsNotifEvt.toEnabled .notifEnabled ∧
    (notif_handler .notifEnabled .mouse .boot s_zero).1.report_mode = s_zero.report_mode ∧
    (pm_evt_handler cfgAll (enter_mode_evt .boot)
        (notif_handler .notifEnabled .mouse .boot s_zero).1).1.report_mode = .boot ∧
    (pm_evt_handler cfgAll (enter_mode_evt .boot)
        (notif_handler .notifEnabled .mouse .boot s_zero).1).1.report_enabled.get .mouse
      (pm_evt_handler cfgAll (enter_mode_evt .boot)
        (notif_handler .notifEnabled .mouse .boot s_zero).1).1.report_mode
      = HidsNotifEvt.toEnabled .notifEnabled :=
  hids_c7_inactive_mode_toggle cfgAll .notifEnabled .mouse .boot s_zero (by decide)

/-- C8: a protocol mode event that does not change report_mode, in
particular any malformed event falling into the default branch, leaves the
whole state unchanged and emits nothing. -/
theorem hids_c8_mode_noop :
    (∀ (cfg : Config) (s : HidsState), pm_evt_handler cfg .other s = (s, [])) ∧
    (∀ (cfg : Config) (evt : HidsPmEvt) (s : HidsState),
      pm_next_mode evt s.report_mode = s.report_mode →
      pm_evt_handler cfg evt s = (s, [])) := by
  have key : ∀ (cfg : Config) (evt : HidsPmEvt) (s : HidsState),
      pm_next_mode evt s.report_mode = s.report_mode →
      pm_evt_handler cfg evt s = (s, []) := by
    intro cfg evt s h
    simp [pm_evt_handler, h]
  exact ⟨fun cfg s => key cfg .other s rfl, key⟩

/-- C8 witness: a repeated boot mode event while already in boot mode. -/
theorem hids_c8_witness :
    pm_evt_handler cfgAll .bootModeEntered s_boot = (s_boot, []) :=
  hids_c8_mode_noop.2 cfgAll .bootModeEntered s_boot (by decide)

/-- C9: a media player send request while boot mode is active reaches
neither the boot path nor the generic indexed path and trips no assertion:
the module does not subscribe to any such event, so delivery drops it. -/
theorem hids_c9_mplayer_boot_dropped (cfg : Config) (s : HidsState) (bitmap : Nat)
    (_h : s.report_mode = .boot) :
    deliver_event cfg s (.hidMplayer bitmap) = ([], false) := rfl

/-- C9 witness: concrete boot mode state. -/
theorem hids_c9_witness :
    s_boot.report_mode = ReportMode.boot ∧
    deliver_event cfgAll s_boot (.hidMplayer 1) = ([], false) :=
  ⟨by decide, hids_c9_mplayer_boot_dropped cfgAll s_boot 1 (by decide)⟩

/-- C10: for deltas already inside the signed 12 bit range, decoding bytes
2 to 4 of the report mode mouse buffer with the documented nibble
interleaved layout recovers the deltas exactly: pack then unpack is the
identity on the clamped range. -/
theorem hids_c10_pack_unpack_roundtrip (e : HidMouseEvent) (b0 b1 b2 b3 b4 : Nat)
    (hx1 : -2047 ≤ e.dx) (hx2 : e.dx ≤ 2047)
    (hy1 : -2047 ≤ e.dy) (hy2 : e.dy ≤ 2047)
    (hbuf : mouse_report_buffer e = [b0, b1, b2, b3, b4]) :
    unpack12_x b2 b3 = e.dx ∧ unpack12_y b3 b4 = e.dy := by
  have hx : max (min e.dx 2047) (-2047) = e.dx := by omega
  have hy : max (min e.dy 2047) (-2047) = e.dy := by omega
  have hspec := mouse_report_buffer_eq e
  rw [hx, hy, hbuf] at hspec
  simp only [List.cons.injEq, and_true] at hspec
  obtain ⟨h0, h1, h2, h3, h4⟩ := hspec
  subst h2 h3 h4
  constructor
  · simp only [unpack12_x, sext12, to12]
    split <;> omega
  · simp only [unpack12_y, sext12, to12]
    split <;> omega

/-- C10 witness: dx -5, dy 7 survive the pack and unpack round trip. -/
theorem hids_c10_witness :
    unpack12_x 251 127 = -5 ∧ unpack12_y 127 0 = 7 :=
  hids_c10_pack_unpack_roundtrip ⟨0, -5, 7, 0⟩ 0 0 251 127 0
    (by decide) (by decide) (by decide) (by decide) (by decide)
